import Mathlib

/-!
Shallow embedding of the newsletter CRUD action handlers
(campaigns, issues, content blocks) over a relational store.

The database is modelled as three lists of rows.  Each remote procedure
becomes a pure function threading the database state explicitly and
returning `DB × Except ActionError Output`; the Zod input validation that
runs before every handler is modelled as a `Bool` predicate checked first.
`Date` values are modelled as `Nat`; `crypto.randomUUID()` and `new Date()`
are passed in as explicit parameters.
-/

namespace NewsletterActions

/-- The authenticated user carried on the request context (`locals.user`). -/
structure User where
  id : String
deriving Repr, DecidableEq

/-- The request context: `context.locals.user` may be absent. -/
structure Ctx where
  user : Option User
deriving Repr, DecidableEq

/-- A row of the `NewsletterCampaigns` table. -/
structure Campaign where
  id : String
  userId : String
  name : String
  description : Option String
  audienceDescription : Option String
  senderName : Option String
  senderEmail : Option String
  defaultLanguage : Option String
  createdAt : Nat
  updatedAt : Nat
deriving Repr, DecidableEq

/-- A row of the `NewsletterIssues` table. -/
structure Issue where
  id : String
  campaignId : String
  userId : String
  issueNumber : Option Int
  subjectLine : String
  preheaderText : Option String
  status : Option String
  scheduledAt : Option Nat
  sentAt : Option Nat
  createdAt : Nat
  updatedAt : Nat
deriving Repr, DecidableEq

/-- A row of the `NewsletterBlocks` table (note: no `updatedAt` column). -/
structure Block where
  id : String
  issueId : String
  orderIndex : Int
  blockType : Option String
  heading : Option String
  body : Option String
  ctaLabel : Option String
  ctaUrl : Option String
  imageUrl : Option String
  metaJson : Option String
  createdAt : Nat
deriving Repr, DecidableEq

/-- The whole store: the three tables. -/
structure DB where
  campaigns : List Campaign
  issues : List Issue
  blocks : List Block
deriving Repr, DecidableEq

/-- Error codes surfaced by the actions: `UNAUTHORIZED`, `NOT_FOUND`, and
the code input-validation failures surface as. -/
inductive ErrCode where
  | UNAUTHORIZED
  | NOT_FOUND
  | BAD_REQUEST
deriving Repr, DecidableEq

/-- An `ActionError`: a code plus a human-readable message. -/
structure ActionError where
  code : ErrCode
  message : String
deriving Repr, DecidableEq

def unauthorizedErr : ActionError :=
  ⟨.UNAUTHORIZED, "You must be signed in to perform this action."⟩

def campaignNotFoundErr : ActionError := ⟨.NOT_FOUND, "Campaign not found."⟩

def ownedIssueNotFoundErr : ActionError := ⟨.NOT_FOUND, "Newsletter issue not found."⟩

def issueNotFoundErr : ActionError := ⟨.NOT_FOUND, "Issue not found."⟩

def blockNotFoundErr : ActionError := ⟨.NOT_FOUND, "Block not found."⟩

/-- The error produced when the Zod input schema rejects the input
(before the handler body runs). -/
def invalidInputErr : ActionError := ⟨.BAD_REQUEST, "Failed to validate input."⟩

/-- Source `requireUser`: extract the authenticated user from the request context,
failing with `UNAUTHORIZED` when it is absent. -/
def requireUser (ctx : Ctx) : Except ActionError User :=
  match ctx.user with
  | none => .error unauthorizedErr
  | some u => .ok u

/-- Row predicate of the campaign ownership query:
`eq(id, campaignId) AND eq(userId, userId)`. -/
def campaignOwnedBy (campaignId userId : String) (c : Campaign) : Bool :=
  c.id == campaignId && c.userId == userId

/-- Source `getOwnedCampaign`: select the campaign filtered by both id and owner;
`NOT_FOUND` when zero rows match. -/
def getOwnedCampaign (campaignId userId : String) (campaigns : List Campaign) :
    Except ActionError Campaign :=
  match (campaigns.filter (campaignOwnedBy campaignId userId)).head? with
  | none => .error campaignNotFoundErr
  | some c => .ok c

/-- Row predicate of the issue ownership query:
`eq(id, issueId) AND eq(userId, userId)`. -/
def issueOwnedBy (issueId userId : String) (i : Issue) : Bool :=
  i.id == issueId && i.userId == userId

/-- Source `getOwnedIssue`: select the issue filtered by both id and owner;
`NOT_FOUND` when zero rows match. -/
def getOwnedIssue (issueId userId : String) (issues : List Issue) :
    Except ActionError Issue :=
  match (issues.filter (issueOwnedBy issueId userId)).head? with
  | none => .error ownedIssueNotFoundErr
  | some i => .ok i

/-- Input of `createCampaign` after structural parsing:
`name` required, five optional strings. -/
structure CreateCampaignInput where
  name : String
  description : Option String
  audienceDescription : Option String
  senderName : Option String
  senderEmail : Option String
  defaultLanguage : Option String
deriving Repr, DecidableEq

/-- Zod refinement for `createCampaign`: `name` has `min(1)`. -/
def validCreateCampaign (i : CreateCampaignInput) : Bool :=
  decide (1 ≤ i.name.length)

/-- The `createCampaign` handler plus its input validation. -/
def runCreateCampaign (i : CreateCampaignInput) (ctx : Ctx) (db : DB)
    (now : Nat) (newId : String) : DB × Except ActionError Campaign :=
  if validCreateCampaign i then
    match requireUser ctx with
    | .error e => (db, .error e)
    | .ok user =>
      let campaign : Campaign :=
        { id := newId
          userId := user.id
          name := i.name
          description := i.description
          audienceDescription := i.audienceDescription
          senderName := i.senderName
          senderEmail := i.senderEmail
          defaultLanguage := i.defaultLanguage
          createdAt := now
          updatedAt := now }
      ({ db with campaigns := db.campaigns ++ [campaign] }, .ok campaign)
  else (db, .error invalidInputErr)

/-- Input of `updateCampaign`: required `id`, six optional mutable fields. -/
structure UpdateCampaignInput where
  id : String
  name : Option String
  description : Option String
  audienceDescription : Option String
  senderName : Option String
  senderEmail : Option String
  defaultLanguage : Option String
deriving Repr, DecidableEq

/-- Zod schema for `updateCampaign`: `id` has `min(1)`, `name` has `min(1)`
when present, and the refinement requires at least one mutable field. -/
def validUpdateCampaign (i : UpdateCampaignInput) : Bool :=
  decide (1 ≤ i.id.length) &&
  (match i.name with
   | some n => decide (1 ≤ n.length)
   | none => true) &&
  (i.name.isSome || i.description.isSome || i.audienceDescription.isSome ||
   i.senderName.isSome || i.senderEmail.isSome || i.defaultLanguage.isSome)

/-- The `set({...})` object of `updateCampaign`: each field is patched only
when supplied, and `updatedAt` is refreshed. -/
def patchCampaign (i : UpdateCampaignInput) (now : Nat) (c : Campaign) : Campaign :=
  { c with
    name := i.name.getD c.name
    description := match i.description with
      | some v => some v
      | none => c.description
    audienceDescription := match i.audienceDescription with
      | some v => some v
      | none => c.audienceDescription
    senderName := match i.senderName with
      | some v => some v
      | none => c.senderName
    senderEmail := match i.senderEmail with
      | some v => some v
      | none => c.senderEmail
    defaultLanguage := match i.defaultLanguage with
      | some v => some v
      | none => c.defaultLanguage
    updatedAt := now }

/-- The `updateCampaign` handler plus its input validation.  The `update`
statement filters only by id (ownership was checked beforehand), and
`returning()` destructured by `[campaign]` yields the first updated row. -/
def runUpdateCampaign (i : UpdateCampaignInput) (ctx : Ctx) (db : DB)
    (now : Nat) : DB × Except ActionError (Option Campaign) :=
  if validUpdateCampaign i then
    match requireUser ctx with
    | .error e => (db, .error e)
    | .ok user =>
      match getOwnedCampaign i.id user.id db.campaigns with
      | .error e => (db, .error e)
      | .ok _ =>
        let campaigns := db.campaigns.map fun c =>
          if c.id == i.id then patchCampaign i now c else c
        let returned :=
          ((db.campaigns.filter (fun c => c.id == i.id)).head?).map
            (patchCampaign i now)
        ({ db with campaigns := campaigns }, .ok returned)
  else (db, .error invalidInputErr)

/-- The list envelope `{ items, total }`. -/
structure ListResult (α : Type) where
  items : List α
  total : Nat
deriving Repr, DecidableEq

/-- The `listCampaigns` handler: all campaigns owned by the caller, with a count. -/
def runListCampaigns (ctx : Ctx) (db : DB) :
    DB × Except ActionError (ListResult Campaign) :=
  match requireUser ctx with
  | .error e => (db, .error e)
  | .ok user =>
    let campaigns := db.campaigns.filter fun c => c.userId == user.id
    (db, .ok ⟨campaigns, campaigns.length⟩)

/-- Input of `createIssue`: required `campaignId` and `subjectLine`. -/
structure CreateIssueInput where
  campaignId : String
  issueNumber : Option Int
  subjectLine : String
  preheaderText : Option String
  status : Option String
  scheduledAt : Option Nat
  sentAt : Option Nat
deriving Repr, DecidableEq

/-- Zod schema for `createIssue`: `campaignId` and `subjectLine` have `min(1)`. -/
def validCreateIssue (i : CreateIssueInput) : Bool :=
  decide (1 ≤ i.campaignId.length) && decide (1 ≤ i.subjectLine.length)

/-- The `createIssue` handler plus its input validation: resolve the owned
campaign, then insert the issue with the caller's id as owner. -/
def runCreateIssue (i : CreateIssueInput) (ctx : Ctx) (db : DB)
    (now : Nat) (newId : String) : DB × Except ActionError Issue :=
  if validCreateIssue i then
    match requireUser ctx with
    | .error e => (db, .error e)
    | .ok user =>
      match getOwnedCampaign i.campaignId user.id db.campaigns with
      | .error e => (db, .error e)
      | .ok _ =>
        let issue : Issue :=
          { id := newId
            campaignId := i.campaignId
            userId := user.id
            issueNumber := i.issueNumber
            subjectLine := i.subjectLine
            preheaderText := i.preheaderText
            status := i.status
            scheduledAt := i.scheduledAt
            sentAt := i.sentAt
            createdAt := now
            updatedAt := now }
        ({ db with issues := db.issues ++ [issue] }, .ok issue)
  else (db, .error invalidInputErr)

/-- Input of `updateIssue`: required `id` and `campaignId`,
six optional mutable fields. -/
structure UpdateIssueInput where
  id : String
  campaignId : String
  issueNumber : Option Int
  subjectLine : Option String
  preheaderText : Option String
  status : Option String
  scheduledAt : Option Nat
  sentAt : Option Nat
deriving Repr, DecidableEq

/-- Zod schema for `updateIssue`: `id` and `campaignId` have `min(1)`, and
the refinement requires at least one mutable field. -/
def validUpdateIssue (i : UpdateIssueInput) : Bool :=
  decide (1 ≤ i.id.length) && decide (1 ≤ i.campaignId.length) &&
  (i.issueNumber.isSome || i.subjectLine.isSome || i.preheaderText.isSome ||
   i.status.isSome || i.scheduledAt.isSome || i.sentAt.isSome)

/-- Row predicate of the `updateIssue` re-fetch:
`eq(id, input.id) AND eq(campaignId, input.campaignId) AND eq(userId, userId)`. -/
def issueMatchesTriple (i : UpdateIssueInput) (userId : String) (row : Issue) : Bool :=
  row.id == i.id && row.campaignId == i.campaignId && row.userId == userId

/-- The `set({...})` object of `updateIssue`: each field is patched only when
supplied, and `updatedAt` is refreshed. -/
def patchIssue (i : UpdateIssueInput) (now : Nat) (row : Issue) : Issue :=
  { row with
    issueNumber := match i.issueNumber with
      | some v => some v
      | none => row.issueNumber
    subjectLine := i.subjectLine.getD row.subjectLine
    preheaderText := match i.preheaderText with
      | some v => some v
      | none => row.preheaderText
    status := match i.status with
      | some v => some v
      | none => row.status
    scheduledAt := match i.scheduledAt with
      | some v => some v
      | none => row.scheduledAt
    sentAt := match i.sentAt with
      | some v => some v
      | none => row.sentAt
    updatedAt := now }

/-- The `updateIssue` handler plus its input validation: resolve the owned
campaign, re-fetch the issue filtered by id + campaignId + userId
(`NOT_FOUND` when absent), then update filtered only by id. -/
def runUpdateIssue (i : UpdateIssueInput) (ctx : Ctx) (db : DB)
    (now : Nat) : DB × Except ActionError (Option Issue) :=
  if validUpdateIssue i then
    match requireUser ctx with
    | .error e => (db, .error e)
    | .ok user =>
      match getOwnedCampaign i.campaignId user.id db.campaigns with
      | .error e => (db, .error e)
      | .ok _ =>
        match (db.issues.filter (issueMatchesTriple i user.id)).head? with
        | none => (db, .error issueNotFoundErr)
        | some _ =>
          let issues := db.issues.map fun row =>
            if row.id == i.id then patchIssue i now row else row
          let returned :=
            ((db.issues.filter (fun row => row.id == i.id)).head?).map
              (patchIssue i now)
          ({ db with issues := issues }, .ok returned)
  else (db, .error invalidInputErr)

/-- Input of `listIssues`: required `campaignId`. -/
structure ListIssuesInput where
  campaignId : String
deriving Repr, DecidableEq

/-- Zod schema for `listIssues`: `campaignId` has `min(1)`. -/
def validListIssues (i : ListIssuesInput) : Bool :=
  decide (1 ≤ i.campaignId.length)

/-- The `listIssues` handler plus its input validation: resolve the owned
campaign, then return all issues under it scoped by owner, with a count. -/
def runListIssues (i : ListIssuesInput) (ctx : Ctx) (db : DB) :
    DB × Except ActionError (ListResult Issue) :=
  if validListIssues i then
    match requireUser ctx with
    | .error e => (db, .error e)
    | .ok user =>
      match getOwnedCampaign i.campaignId user.id db.campaigns with
      | .error e => (db, .error e)
      | .ok _ =>
        let issues := db.issues.filter fun row =>
          row.campaignId == i.campaignId && row.userId == user.id
        (db, .ok ⟨issues, issues.length⟩)
  else (db, .error invalidInputErr)

/-- Input of `createBlock`: required `issueId`, eight optional fields. -/
structure CreateBlockInput where
  issueId : String
  orderIndex : Option Int
  blockType : Option String
  heading : Option String
  body : Option String
  ctaLabel : Option String
  ctaUrl : Option String
  imageUrl : Option String
  metaJson : Option String
deriving Repr, DecidableEq

/-- Zod schema for `createBlock`: `issueId` has `min(1)`. -/
def validCreateBlock (i : CreateBlockInput) : Bool :=
  decide (1 ≤ i.issueId.length)

/-- The `createBlock` handler plus its input validation: resolve the owned issue
and then its campaign, then insert the block; `orderIndex` defaults to 1
via `input.orderIndex ?? 1`. -/
def runCreateBlock (i : CreateBlockInput) (ctx : Ctx) (db : DB)
    (now : Nat) (newId : String) : DB × Except ActionError Block :=
  if validCreateBlock i then
    match requireUser ctx with
    | .error e => (db, .error e)
    | .ok user =>
      match getOwnedIssue i.issueId user.id db.issues with
      | .error e => (db, .error e)
      | .ok issue =>
        match getOwnedCampaign issue.campaignId user.id db.campaigns with
        | .error e => (db, .error e)
        | .ok _ =>
          let block : Block :=
            { id := newId
              issueId := i.issueId
              orderIndex := i.orderIndex.getD 1
              blockType := i.blockType
              heading := i.heading
              body := i.body
              ctaLabel := i.ctaLabel
              ctaUrl := i.ctaUrl
              imageUrl := i.imageUrl
              metaJson := i.metaJson
              createdAt := now }
          ({ db with blocks := db.blocks ++ [block] }, .ok block)
  else (db, .error invalidInputErr)

/-- Input of `updateBlock`: required `id` and `issueId`,
eight optional mutable fields. -/
structure UpdateBlockInput where
  id : String
  issueId : String
  orderIndex : Option Int
  blockType : Option String
  heading : Option String
  body : Option String
  ctaLabel : Option String
  ctaUrl : Option String
  imageUrl : Option String
  metaJson : Option String
deriving Repr, DecidableEq

/-- Zod schema for `updateBlock`: `id` and `issueId` have `min(1)`, and the
refinement requires at least one mutable field. -/
def validUpdateBlock (i : UpdateBlockInput) : Bool :=
  decide (1 ≤ i.id.length) && decide (1 ≤ i.issueId.length) &&
  (i.orderIndex.isSome || i.blockType.isSome || i.heading.isSome ||
   i.body.isSome || i.ctaLabel.isSome || i.ctaUrl.isSome ||
   i.imageUrl.isSome || i.metaJson.isSome)

/-- Row predicate of the block re-fetch and of `deleteBlock`:
`eq(id, input.id) AND eq(issueId, input.issueId)`. -/
def blockMatches (id issueId : String) (b : Block) : Bool :=
  b.id == id && b.issueId == issueId

/-- The `set({...})` object of `updateBlock`: each field is patched only when
supplied; there is no timestamp column to refresh. -/
def patchBlock (i : UpdateBlockInput) (b : Block) : Block :=
  { b with
    orderIndex := i.orderIndex.getD b.orderIndex
    blockType := match i.blockType with
      | some v => some v
      | none => b.blockType
    heading := match i.heading with
      | some v => some v
      | none => b.heading
    body := match i.body with
      | some v => some v
      | none => b.body
    ctaLabel := match i.ctaLabel with
      | some v => some v
      | none => b.ctaLabel
    ctaUrl := match i.ctaUrl with
      | some v => some v
      | none => b.ctaUrl
    imageUrl := match i.imageUrl with
      | some v => some v
      | none => b.imageUrl
    metaJson := match i.metaJson with
      | some v => some v
      | none => b.metaJson }

/-- The `updateBlock` handler plus its input validation: resolve the owned issue
and its campaign, re-fetch the block filtered by id + issueId (`NOT_FOUND`
when absent), then update filtered only by id. -/
def runUpdateBlock (i : UpdateBlockInput) (ctx : Ctx) (db : DB) :
    DB × Except ActionError (Option Block) :=
  if validUpdateBlock i then
    match requireUser ctx with
    | .error e => (db, .error e)
    | .ok user =>
      match getOwnedIssue i.issueId user.id db.issues with
      | .error e => (db, .error e)
      | .ok issue =>
        match getOwnedCampaign issue.campaignId user.id db.campaigns with
        | .error e => (db, .error e)
        | .ok _ =>
          match (db.blocks.filter (blockMatches i.id i.issueId)).head? with
          | none => (db, .error blockNotFoundErr)
          | some _ =>
            let blocks := db.blocks.map fun b =>
              if b.id == i.id then patchBlock i b else b
            let returned :=
              ((db.blocks.filter (fun b => b.id == i.id)).head?).map
                (patchBlock i)
            ({ db with blocks := blocks }, .ok returned)
  else (db, .error invalidInputErr)

/-- Input of `deleteBlock`: required `id` and `issueId`. -/
structure DeleteBlockInput where
  id : String
  issueId : String
deriving Repr, DecidableEq

/-- Zod schema for `deleteBlock`: `id` and `issueId` have `min(1)`. -/
def validDeleteBlock (i : DeleteBlockInput) : Bool :=
  decide (1 ≤ i.id.length) && decide (1 ≤ i.issueId.length)

/-- The bare acknowledgment `{ success: true }` returned by `deleteBlock`. -/
structure DeleteAck where
  success : Bool
deriving Repr, DecidableEq

/-- The `deleteBlock` handler plus its input validation: resolve the owned issue
and its campaign, delete filtered by id + issueId, then fail `NOT_FOUND`
when `rowsAffected` is zero. -/
def runDeleteBlock (i : DeleteBlockInput) (ctx : Ctx) (db : DB) :
    DB × Except ActionError DeleteAck :=
  if validDeleteBlock i then
    match requireUser ctx with
    | .error e => (db, .error e)
    | .ok user =>
      match getOwnedIssue i.issueId user.id db.issues with
      | .error e => (db, .error e)
      | .ok issue =>
        match getOwnedCampaign issue.campaignId user.id db.campaigns with
        | .error e => (db, .error e)
        | .ok _ =>
          let rowsAffected := (db.blocks.filter (blockMatches i.id i.issueId)).length
          let db' := { db with
            blocks := db.blocks.filter fun b => !(blockMatches i.id i.issueId b) }
          if rowsAffected == 0 then (db', .error blockNotFoundErr)
          else (db', .ok ⟨true⟩)
  else (db, .error invalidInputErr)

/-- Input of `listBlocks`: required `issueId`. -/
structure ListBlocksInput where
  issueId : String
deriving Repr, DecidableEq

/-- Zod schema for `listBlocks`: `issueId` has `min(1)`. -/
def validListBlocks (i : ListBlocksInput) : Bool :=
  decide (1 ≤ i.issueId.length)

/-- The `listBlocks` handler plus its input validation: resolve the owned issue
and its campaign, then return all blocks of the issue, with a count. -/
def runListBlocks (i : ListBlocksInput) (ctx : Ctx) (db : DB) :
    DB × Except ActionError (ListResult Block) :=
  if validListBlocks i then
    match requireUser ctx with
    | .error e => (db, .error e)
    | .ok user =>
      match getOwnedIssue i.issueId user.id db.issues with
      | .error e => (db, .error e)
      | .ok issue =>
        match getOwnedCampaign issue.campaignId user.id db.campaigns with
        | .error e => (db, .error e)
        | .ok _ =>
          let blocks := db.blocks.filter fun b => b.issueId == i.issueId
          (db, .ok ⟨blocks, blocks.length⟩)
  else (db, .error invalidInputErr)

/-! ### Specification predicates for the partial-patch frame claims -/

/-- The new campaign table arises from the old one by a per-row function that
leaves non-target rows untouched, preserves the immutable columns, and
preserves every mutable column absent from the update input. -/
def CampaignAbsentFieldsPreserved (i : UpdateCampaignInput)
    (olds news : List Campaign) : Prop :=
  ∃ f, news = olds.map f ∧ ∀ c : Campaign,
    (¬c.id = i.id → f c = c) ∧
    (f c).id = c.id ∧ (f c).userId = c.userId ∧ (f c).createdAt = c.createdAt ∧
    (i.name = none → (f c).name = c.name) ∧
    (i.description = none → (f c).description = c.description) ∧
    (i.audienceDescription = none →
      (f c).audienceDescription = c.audienceDescription) ∧
    (i.senderName = none → (f c).senderName = c.senderName) ∧
    (i.senderEmail = none → (f c).senderEmail = c.senderEmail) ∧
    (i.defaultLanguage = none → (f c).defaultLanguage = c.defaultLanguage)

/-- Issue analogue of `CampaignAbsentFieldsPreserved`. -/
def IssueAbsentFieldsPreserved (i : UpdateIssueInput)
    (olds news : List Issue) : Prop :=
  ∃ f, news = olds.map f ∧ ∀ r : Issue,
    (¬r.id = i.id → f r = r) ∧
    (f r).id = r.id ∧ (f r).campaignId = r.campaignId ∧
    (f r).userId = r.userId ∧ (f r).createdAt = r.createdAt ∧
    (i.issueNumber = none → (f r).issueNumber = r.issueNumber) ∧
    (i.subjectLine = none → (f r).subjectLine = r.subjectLine) ∧
    (i.preheaderText = none → (f r).preheaderText = r.preheaderText) ∧
    (i.status = none → (f r).status = r.status) ∧
    (i.scheduledAt = none → (f r).scheduledAt = r.scheduledAt) ∧
    (i.sentAt = none → (f r).sentAt = r.sentAt)

/-- Block analogue of `CampaignAbsentFieldsPreserved` (every column of a
non-patched kind is preserved; blocks have no `updatedAt` at all). -/
def BlockAbsentFieldsPreserved (i : UpdateBlockInput)
    (olds news : List Block) : Prop :=
  ∃ f, news = olds.map f ∧ ∀ b : Block,
    (¬b.id = i.id → f b = b) ∧
    (f b).id = b.id ∧ (f b).issueId = b.issueId ∧ (f b).createdAt = b.createdAt ∧
    (i.orderIndex = none → (f b).orderIndex = b.orderIndex) ∧
    (i.blockType = none → (f b).blockType = b.blockType) ∧
    (i.heading = none → (f b).heading = b.heading) ∧
    (i.body = none → (f b).body = b.body) ∧
    (i.ctaLabel = none → (f b).ctaLabel = b.ctaLabel) ∧
    (i.ctaUrl = none → (f b).ctaUrl = b.ctaUrl) ∧
    (i.imageUrl = none → (f b).imageUrl = b.imageUrl) ∧
    (i.metaJson = none → (f b).metaJson = b.metaJson)

/-- Every row targeted by the campaign update gets `updatedAt = now`. -/
def CampaignUpdatedAtRefreshed (i : UpdateCampaignInput) (now : Nat)
    (olds news : List Campaign) : Prop :=
  ∃ f, news = olds.map f ∧ ∀ c : Campaign, c.id = i.id → (f c).updatedAt = now

/-- Every row targeted by the issue update gets `updatedAt = now`. -/
def IssueUpdatedAtRefreshed (i : UpdateIssueInput) (now : Nat)
    (olds news : List Issue) : Prop :=
  ∃ f, news = olds.map f ∧ ∀ r : Issue, r.id = i.id → (f r).updatedAt = now

/-- The block update changes no timestamp: every row keeps its `createdAt`
(the only timestamp column a block has). -/
def BlockTimestampsUntouched (olds news : List Block) : Prop :=
  ∃ f, news = olds.map f ∧ ∀ b : Block, (f b).createdAt = b.createdAt

/-! ### Concrete fixtures used by the witness theorems -/

def userW : User := ⟨"u1"⟩

def ctxW : Ctx := ⟨some userW⟩

def campW : Campaign := ⟨"c1", "u1", "N", none, none, none, none, none, 0, 0⟩

def campW2 : Campaign := ⟨"c1", "u1", "N2", none, none, none, none, none, 0, 5⟩

def issW : Issue := ⟨"i1", "c1", "u1", none, "S", none, none, none, none, 0, 0⟩

def issW2 : Issue := ⟨"i1", "c1", "u1", none, "S2", none, none, none, none, 0, 7⟩

def blkW : Block := ⟨"b1", "i1", 1, none, none, none, none, none, none, none, 0⟩

def blkW2 : Block :=
  ⟨"b1", "i1", 1, none, some "H", none, none, none, none, none, 0⟩

def updCampW : UpdateCampaignInput := ⟨"c1", some "N2", none, none, none, none, none⟩

def updIssW : UpdateIssueInput := ⟨"i1", "c1", none, some "S2", none, none, none, none⟩

def updBlkW : UpdateBlockInput :=
  ⟨"b1", "i1", none, none, some "H", none, none, none, none, none⟩

def dbCampW : DB := ⟨[campW], [], []⟩

def dbCampW2 : DB := ⟨[campW2], [], []⟩

def dbIssW : DB := ⟨[campW], [issW], []⟩

def dbIssW2 : DB := ⟨[campW], [issW2], []⟩

def dbBlkW : DB := ⟨[campW], [issW], [blkW]⟩

def dbBlkW2 : DB := ⟨[campW], [issW], [blkW2]⟩

def creIssW : CreateIssueInput := ⟨"c1", none, "S", none, none, none, none⟩

def newIssW : Issue := ⟨"i9", "c1", "u1", none, "S", none, none, none, none, 3, 3⟩

def creBlkW : CreateBlockInput :=
  ⟨"i1", none, none, none, none, none, none, none, none⟩

def newBlkW : Block :=
  ⟨"b9", "i1", 1, none, none, none, none, none, none, none, 4⟩

def dbCampIssW : DB := ⟨[campW], [newIssW], []⟩

def dbIssBlkW : DB := ⟨[campW], [issW], [newBlkW]⟩

def delBlkW : DeleteBlockInput := ⟨"b1", "i1"⟩

/-! ### Helper lemmas about the ownership resolvers -/

theorem getOwnedCampaign_ok {cid uid : String} {cs : List Campaign} {c : Campaign}
    (h : getOwnedCampaign cid uid cs = .ok c) :
    c ∈ cs ∧ c.id = cid ∧ c.userId = uid := by
  unfold getOwnedCampaign at h
  rcases hh : (cs.filter (campaignOwnedBy cid uid)).head? with _ | c'
  · rw [hh] at h; cases h
  · rw [hh] at h
    cases h
    have hc : c ∈ cs.filter (campaignOwnedBy cid uid) :=
      List.mem_of_mem_head? (by rw [hh]; exact rfl)
    rw [List.mem_filter] at hc
    obtain ⟨hmem, hp⟩ := hc
    simp only [campaignOwnedBy, Bool.and_eq_true, beq_iff_eq] at hp
    exact ⟨hmem, hp.1, hp.2⟩

theorem getOwnedCampaign_error_iff {cid uid : String} {cs : List Campaign} :
    getOwnedCampaign cid uid cs = .error campaignNotFoundErr ↔
      ∀ c ∈ cs, ¬(c.id = cid ∧ c.userId = uid) := by
  unfold getOwnedCampaign
  rcases hh : (cs.filter (campaignOwnedBy cid uid)).head? with _ | c'
  · rw [List.head?_eq_none_iff, List.filter_eq_nil_iff] at hh
    simp only [reduceCtorEq, true_iff]
    intro c hc
    have := hh c hc
    simpa [campaignOwnedBy] using this
  · have hc : c' ∈ cs.filter (campaignOwnedBy cid uid) :=
      List.mem_of_mem_head? (by rw [hh]; exact rfl)
    rw [List.mem_filter] at hc
    obtain ⟨hmem, hp⟩ := hc
    simp only [campaignOwnedBy, Bool.and_eq_true, beq_iff_eq] at hp
    simp only [reduceCtorEq, false_iff, not_forall]
    exact ⟨c', hmem, by simpa using hp⟩

theorem getOwnedIssue_ok {iid uid : String} {issues : List Issue} {row : Issue}
    (h : getOwnedIssue iid uid issues = .ok row) :
    row ∈ issues ∧ row.id = iid ∧ row.userId = uid := by
  unfold getOwnedIssue at h
  rcases hh : (issues.filter (issueOwnedBy iid uid)).head? with _ | r'
  · rw [hh] at h; cases h
  · rw [hh] at h
    cases h
    have hc : row ∈ issues.filter (issueOwnedBy iid uid) :=
      List.mem_of_mem_head? (by rw [hh]; exact rfl)
    rw [List.mem_filter] at hc
    obtain ⟨hmem, hp⟩ := hc
    simp only [issueOwnedBy, Bool.and_eq_true, beq_iff_eq] at hp
    exact ⟨hmem, hp.1, hp.2⟩

theorem getOwnedIssue_error_iff {iid uid : String} {issues : List Issue} :
    getOwnedIssue iid uid issues = .error ownedIssueNotFoundErr ↔
      ∀ row ∈ issues, ¬(row.id = iid ∧ row.userId = uid) := by
  unfold getOwnedIssue
  rcases hh : (issues.filter (issueOwnedBy iid uid)).head? with _ | r'
  · rw [List.head?_eq_none_iff, List.filter_eq_nil_iff] at hh
    simp only [reduceCtorEq, true_iff]
    intro r hr
    have := hh r hr
    simpa [issueOwnedBy] using this
  · have hc : r' ∈ issues.filter (issueOwnedBy iid uid) :=
      List.mem_of_mem_head? (by rw [hh]; exact rfl)
    rw [List.mem_filter] at hc
    obtain ⟨hmem, hp⟩ := hc
    simp only [issueOwnedBy, Bool.and_eq_true, beq_iff_eq] at hp
    simp only [reduceCtorEq, false_iff, not_forall]
    exact ⟨r', hmem, by simpa using hp⟩

theorem requireUser_ok {ctx : Ctx} {u : User} (h : requireUser ctx = .ok u) :
    ctx.user = some u := by
  unfold requireUser at h
  rcases hh : ctx.user with _ | v
  · rw [hh] at h; cases h
  · rw [hh] at h; cases h; rfl

/-! ### Inversion lemmas for successful handler runs -/

theorem runUpdateCampaign_ok_inv {i : UpdateCampaignInput} {ctx : Ctx}
    {db db' : DB} {now : Nat} {out : Option Campaign}
    (h : runUpdateCampaign i ctx db now = (db', .ok out)) :
    db'.campaigns =
      db.campaigns.map (fun c => if c.id == i.id then patchCampaign i now c else c) ∧
    db'.issues = db.issues ∧ db'.blocks = db.blocks := by
  unfold runUpdateCampaign at h
  split at h
  · split at h
    · simp at h
    · split at h
      · simp at h
      · simp only [Prod.mk.injEq] at h
        obtain ⟨h1, -⟩ := h
        subst h1
        exact ⟨rfl, rfl, rfl⟩
  · simp at h

theorem runUpdateIssue_ok_inv {i : UpdateIssueInput} {ctx : Ctx}
    {db db' : DB} {now : Nat} {out : Option Issue}
    (h : runUpdateIssue i ctx db now = (db', .ok out)) :
    ∃ u, ctx.user = some u ∧
      (∃ row ∈ db.issues, row.id = i.id ∧ row.campaignId = i.campaignId ∧
        row.userId = u.id) ∧
      db'.issues =
        db.issues.map (fun r => if r.id == i.id then patchIssue i now r else r) ∧
      db'.campaigns = db.campaigns ∧ db'.blocks = db.blocks := by
  unfold runUpdateIssue at h
  split at h
  · split at h
    · simp at h
    · rename_i user huser
      split at h
      · simp at h
      · split at h
        · simp at h
        · rename_i row hrow
          refine ⟨user, requireUser_ok huser, ?_, ?_⟩
          · have hmem : row ∈ db.issues.filter (issueMatchesTriple i user.id) :=
              List.mem_of_mem_head? (by rw [hrow]; exact rfl)
            rw [List.mem_filter] at hmem
            obtain ⟨hm, hp⟩ := hmem
            simp only [issueMatchesTriple, Bool.and_eq_true, beq_iff_eq] at hp
            exact ⟨row, hm, hp.1.1, hp.1.2, hp.2⟩
          · simp only [Prod.mk.injEq] at h
            obtain ⟨h1, -⟩ := h
            subst h1
            exact ⟨rfl, rfl, rfl⟩
  · simp at h

theorem runUpdateBlock_ok_inv {i : UpdateBlockInput} {ctx : Ctx}
    {db db' : DB} {out : Option Block}
    (h : runUpdateBlock i ctx db = (db', .ok out)) :
    db'.blocks =
      db.blocks.map (fun b => if b.id == i.id then patchBlock i b else b) ∧
    db'.campaigns = db.campaigns ∧ db'.issues = db.issues := by
  unfold runUpdateBlock at h
  split at h
  · split at h
    · simp at h
    · split at h
      · simp at h
      · split at h
        · simp at h
        · split at h
          · simp at h
          · simp only [Prod.mk.injEq] at h
            obtain ⟨h1, -⟩ := h
            subst h1
            exact ⟨rfl, rfl, rfl⟩
  · simp at h

theorem runCreateIssue_ok_inv {i : CreateIssueInput} {ctx : Ctx} {db db' : DB}
    {now : Nat} {newId : String} {issue : Issue}
    (h : runCreateIssue i ctx db now newId = (db', .ok issue)) :
    ∃ u, ctx.user = some u ∧ issue.userId = u.id ∧
      ∃ c, getOwnedCampaign i.campaignId u.id db.campaigns = .ok c := by
  unfold runCreateIssue at h
  split at h
  · split at h
    · simp at h
    · rename_i user huser
      split at h
      · simp at h
      · rename_i c hc
        simp only [Prod.mk.injEq] at h
        obtain ⟨-, h2⟩ := h
        cases h2
        exact ⟨user, requireUser_ok huser, rfl, c, hc⟩
  · simp at h

theorem runCreateBlock_ok_inv {i : CreateBlockInput} {ctx : Ctx} {db db' : DB}
    {now : Nat} {newId : String} {block : Block}
    (h : runCreateBlock i ctx db now newId = (db', .ok block)) :
    block.orderIndex = i.orderIndex.getD 1 ∧
    db'.blocks = db.blocks ++ [block] ∧
    db'.campaigns = db.campaigns ∧ db'.issues = db.issues := by
  unfold runCreateBlock at h
  split at h
  · split at h
    · simp at h
    · split at h
      · simp at h
      · split at h
        · simp at h
        · simp only [Prod.mk.injEq] at h
          obtain ⟨h1, h2⟩ := h
          cases h2
          subst h1
          exact ⟨rfl, rfl, rfl, rfl⟩
  · simp at h

/-! ### Claim theorems -/

/-- C1: for every operation (createCampaign, updateCampaign, listCampaigns,
createIssue, updateIssue, listIssues, createBlock, updateBlock, deleteBlock,
listBlocks), if the request context has no authenticated user, the operation
fails with an UNAUTHORIZED error and no row in any table is created, mutated,
or deleted (the returned store is exactly the input store). -/
theorem C1_unauthenticated_rejected
    (ctx : Ctx) (db : DB) (now : Nat) (newId : String)
    (i1 : CreateCampaignInput) (i2 : UpdateCampaignInput)
    (i3 : CreateIssueInput) (i4 : UpdateIssueInput) (i5 : ListIssuesInput)
    (i6 : CreateBlockInput) (i7 : UpdateBlockInput) (i8 : DeleteBlockInput)
    (i9 : ListBlocksInput)
    (hctx : ctx.user = none)
    (h1 : validCreateCampaign i1 = true) (h2 : validUpdateCampaign i2 = true)
    (h3 : validCreateIssue i3 = true) (h4 : validUpdateIssue i4 = true)
    (h5 : validListIssues i5 = true) (h6 : validCreateBlock i6 = true)
    (h7 : validUpdateBlock i7 = true) (h8 : validDeleteBlock i8 = true)
    (h9 : validListBlocks i9 = true) :
    unauthorizedErr.code = ErrCode.UNAUTHORIZED ∧
    runCreateCampaign i1 ctx db now newId = (db, .error unauthorizedErr) ∧
    runUpdateCampaign i2 ctx db now = (db, .error unauthorizedErr) ∧
    runListCampaigns ctx db = (db, .error unauthorizedErr) ∧
    runCreateIssue i3 ctx db now newId = (db, .error unauthorizedErr) ∧
    runUpdateIssue i4 ctx db now = (db, .error unauthorizedErr) ∧
    runListIssues i5 ctx db = (db, .error unauthorizedErr) ∧
    runCreateBlock i6 ctx db now newId = (db, .error unauthorizedErr) ∧
    runUpdateBlock i7 ctx db = (db, .error unauthorizedErr) ∧
    runDeleteBlock i8 ctx db = (db, .error unauthorizedErr) ∧
    runListBlocks i9 ctx db = (db, .error unauthorizedErr) := by
  refine ⟨rfl, ?_, ?_, ?_, ?_, ?_, ?_, ?_, ?_, ?_, ?_⟩ <;>
    simp [runCreateCampaign, runUpdateCampaign, runListCampaigns, runCreateIssue,
      runUpdateIssue, runListIssues, runCreateBlock, runUpdateBlock,
      runDeleteBlock, runListBlocks, requireUser, hctx, h1, h2, h3, h4, h5,
      h6, h7, h8, h9]

/-- C1 witness at a concrete unauthenticated context, empty store, and
concrete valid inputs. -/
theorem C1_unauthenticated_rejected_witness :
    runDeleteBlock ⟨"b1", "i1"⟩ ⟨none⟩ ⟨[], [], []⟩ =
      (⟨[], [], []⟩, .error unauthorizedErr) :=
  (C1_unauthenticated_rejected ⟨none⟩ ⟨[], [], []⟩ 0 "id0"
    ⟨"n", none, none, none, none, none⟩
    ⟨"c1", some "n", none, none, none, none, none⟩
    ⟨"c1", none, "s", none, none, none, none⟩
    ⟨"i1", "c1", none, some "s", none, none, none, none⟩
    ⟨"c1"⟩
    ⟨"i1", none, none, none, none, none, none, none, none⟩
    ⟨"b1", "i1", none, none, some "h", none, none, none, none, none⟩
    ⟨"b1", "i1"⟩
    ⟨"i1"⟩
    rfl (by decide) (by decide) (by decide) (by decide) (by decide)
    (by decide) (by decide) (by decide) (by decide)).2.2.2.2.2.2.2.2.2.1

/-- C2: the ownership resolvers return NOT_FOUND exactly when no row matches
both the id and the caller's userId (a nonexistent id and an id owned by a
different user are indistinguishable), and when a row matches both filters
the resolver returns a matching row. -/
theorem C2_owned_resolvers
    (cid iid uid : String) (cs : List Campaign) (issues : List Issue) :
    (getOwnedCampaign cid uid cs = .error campaignNotFoundErr ↔
      ∀ c ∈ cs, ¬(c.id = cid ∧ c.userId = uid)) ∧
    (campaignNotFoundErr.code = ErrCode.NOT_FOUND) ∧
    (∀ c, getOwnedCampaign cid uid cs = .ok c →
      c ∈ cs ∧ c.id = cid ∧ c.userId = uid) ∧
    ((∃ c ∈ cs, c.id = cid ∧ c.userId = uid) →
      ∃ c, getOwnedCampaign cid uid cs = .ok c) ∧
    (getOwnedIssue iid uid issues = .error ownedIssueNotFoundErr ↔
      ∀ row ∈ issues, ¬(row.id = iid ∧ row.userId = uid)) ∧
    (ownedIssueNotFoundErr.code = ErrCode.NOT_FOUND) ∧
    (∀ row, getOwnedIssue iid uid issues = .ok row →
      row ∈ issues ∧ row.id = iid ∧ row.userId = uid) ∧
    ((∃ row ∈ issues, row.id = iid ∧ row.userId = uid) →
      ∃ row, getOwnedIssue iid uid issues = .ok row) := by
  refine ⟨getOwnedCampaign_error_iff, rfl, fun c h => getOwnedCampaign_ok h,
    ?_, getOwnedIssue_error_iff, rfl, fun row h => getOwnedIssue_ok h, ?_⟩
  · intro hex
    rcases hc : getOwnedCampaign cid uid cs with e | c
    · rcases hex with ⟨c, hmem, hp⟩
      have : e = campaignNotFoundErr := by
        unfold getOwnedCampaign at hc
        rcases hh : (cs.filter (campaignOwnedBy cid uid)).head? with _ | c'
        · rw [hh] at hc; cases hc; rfl
        · rw [hh] at hc; cases hc
      subst this
      exact absurd hp (getOwnedCampaign_error_iff.mp hc c hmem)
    · exact ⟨c, rfl⟩
  · intro hex
    rcases hc : getOwnedIssue iid uid issues with e | row
    · rcases hex with ⟨row, hmem, hp⟩
      have : e = ownedIssueNotFoundErr := by
        unfold getOwnedIssue at hc
        rcases hh : (issues.filter (issueOwnedBy iid uid)).head? with _ | r'
        · rw [hh] at hc; cases hc; rfl
        · rw [hh] at hc; cases hc
      subst this
      exact absurd hp (getOwnedIssue_error_iff.mp hc row hmem)
    · exact ⟨row, rfl⟩

/-- C2 witness: a concrete store where the id exists but is owned by someone
else yields NOT_FOUND, by applying the resolver theorem. -/
theorem C2_owned_resolvers_witness :
    getOwnedCampaign "c1" "u2"
        [⟨"c1", "u1", "n", none, none, none, none, none, 0, 0⟩] =
      .error campaignNotFoundErr :=
  (C2_owned_resolvers "c1" "i1" "u2"
      [⟨"c1", "u1", "n", none, none, none, none, none, 0, 0⟩] []).1.mpr
    (by decide)

/-- C3: for every successful updateCampaign, updateIssue, or updateBlock
call, any mutable field absent (undefined) in the input keeps exactly the
value the target row had before the call; only the fields present in the
input (plus the timestamp refresh where applicable) change. -/
theorem C3_partial_update_preserves_absent_fields :
    (∀ (i : UpdateCampaignInput) (ctx : Ctx) (db db' : DB) (now : Nat)
        (out : Option Campaign),
      runUpdateCampaign i ctx db now = (db', .ok out) →
      CampaignAbsentFieldsPreserved i db.campaigns db'.campaigns) ∧
    (∀ (i : UpdateIssueInput) (ctx : Ctx) (db db' : DB) (now : Nat)
        (out : Option Issue),
      runUpdateIssue i ctx db now = (db', .ok out) →
      IssueAbsentFieldsPreserved i db.issues db'.issues) ∧
    (∀ (i : UpdateBlockInput) (ctx : Ctx) (db db' : DB) (out : Option Block),
      runUpdateBlock i ctx db = (db', .ok out) →
      BlockAbsentFieldsPreserved i db.blocks db'.blocks) := by
  refine ⟨?_, ?_, ?_⟩
  · intro i ctx db db' now out h
    obtain ⟨h1, -, -⟩ := runUpdateCampaign_ok_inv h
    refine ⟨_, h1, fun c => ?_⟩
    by_cases hid : c.id = i.id
    · have htrue : (c.id == i.id) = true := by simp [hid]
      refine ⟨fun hne => absurd hid hne, ?_, ?_, ?_, ?_, ?_, ?_, ?_, ?_, ?_⟩ <;>
        first
          | (intro hn; simp [htrue, patchCampaign, hn])
          | simp [htrue, patchCampaign]
    · have hfalse : (c.id == i.id) = false := by simp [hid]
      refine ⟨fun _ => ?_, ?_, ?_, ?_, ?_, ?_, ?_, ?_, ?_, ?_⟩ <;>
        first
          | (intro hn; simp [hfalse])
          | simp [hfalse]
  · intro i ctx db db' now out h
    obtain ⟨u, -, -, h1, -, -⟩ := runUpdateIssue_ok_inv h
    refine ⟨_, h1, fun r => ?_⟩
    by_cases hid : r.id = i.id
    · have htrue : (r.id == i.id) = true := by simp [hid]
      refine ⟨fun hne => absurd hid hne, ?_, ?_, ?_, ?_, ?_, ?_, ?_, ?_, ?_, ?_⟩ <;>
        first
          | (intro hn; simp [htrue, patchIssue, hn])
          | simp [htrue, patchIssue]
    · have hfalse : (r.id == i.id) = false := by simp [hid]
      refine ⟨fun _ => ?_, ?_, ?_, ?_, ?_, ?_, ?_, ?_, ?_, ?_, ?_⟩ <;>
        first
          | (intro hn; simp [hfalse])
          | simp [hfalse]
  · intro i ctx db db' out h
    obtain ⟨h1, -, -⟩ := runUpdateBlock_ok_inv h
    refine ⟨_, h1, fun b => ?_⟩
    by_cases hid : b.id = i.id
    · have htrue : (b.id == i.id) = true := by simp [hid]
      refine ⟨fun hne => absurd hid hne, ?_, ?_, ?_,
        ?_, ?_, ?_, ?_, ?_, ?_, ?_, ?_⟩ <;>
        first
          | (intro hn; simp [htrue, patchBlock, hn])
          | simp [htrue, patchBlock]
    · have hfalse : (b.id == i.id) = false := by simp [hid]
      refine ⟨fun _ => ?_, ?_, ?_, ?_, ?_, ?_, ?_, ?_, ?_, ?_, ?_, ?_⟩ <;>
        first
          | (intro hn; simp [hfalse])
          | simp [hfalse]

/-- C3 witness: a concrete successful `updateCampaign` supplying only `name`
satisfies the absent-field frame property. -/
theorem C3_partial_update_preserves_absent_fields_witness :
    CampaignAbsentFieldsPreserved updCampW dbCampW.campaigns dbCampW2.campaigns :=
  C3_partial_update_preserves_absent_fields.1 updCampW ctxW dbCampW dbCampW2 5
    (some campW2) rfl

/-- C4: for every updateCampaign, updateIssue, or updateBlock input in which
all mutable fields are absent, input validation rejects the request with a
validation error before any database read or write occurs, leaving the
store unchanged. -/
theorem C4_empty_patch_rejected :
    invalidInputErr.code = ErrCode.BAD_REQUEST ∧
    (∀ (i : UpdateCampaignInput) (ctx : Ctx) (db : DB) (now : Nat),
      i.name = none → i.description = none → i.audienceDescription = none →
      i.senderName = none → i.senderEmail = none → i.defaultLanguage = none →
      validUpdateCampaign i = false ∧
        runUpdateCampaign i ctx db now = (db, .error invalidInputErr)) ∧
    (∀ (i : UpdateIssueInput) (ctx : Ctx) (db : DB) (now : Nat),
      i.issueNumber = none → i.subjectLine = none → i.preheaderText = none →
      i.status = none → i.scheduledAt = none → i.sentAt = none →
      validUpdateIssue i = false ∧
        runUpdateIssue i ctx db now = (db, .error invalidInputErr)) ∧
    (∀ (i : UpdateBlockInput) (ctx : Ctx) (db : DB),
      i.orderIndex = none → i.blockType = none → i.heading = none →
      i.body = none → i.ctaLabel = none → i.ctaUrl = none →
      i.imageUrl = none → i.metaJson = none →
      validUpdateBlock i = false ∧
        runUpdateBlock i ctx db = (db, .error invalidInputErr)) := by
  refine ⟨rfl, ?_, ?_, ?_⟩
  · intro i ctx db now e1 e2 e3 e4 e5 e6
    have v : validUpdateCampaign i = false := by
      simp [validUpdateCampaign, e1, e2, e3, e4, e5, e6]
    exact ⟨v, by simp [runUpdateCampaign, v]⟩
  · intro i ctx db now e1 e2 e3 e4 e5 e6
    have v : validUpdateIssue i = false := by
      simp [validUpdateIssue, e1, e2, e3, e4, e5, e6]
    exact ⟨v, by simp [runUpdateIssue, v]⟩
  · intro i ctx db e1 e2 e3 e4 e5 e6 e7 e8
    have v : validUpdateBlock i = false := by
      simp [validUpdateBlock, e1, e2, e3, e4, e5, e6, e7, e8]
    exact ⟨v, by simp [runUpdateBlock, v]⟩

/-- C4 witness: the all-absent campaign patch against a concrete store is
rejected with the validation error and the store is returned unchanged. -/
theorem C4_empty_patch_rejected_witness :
    validUpdateCampaign ⟨"c1", none, none, none, none, none, none⟩ = false ∧
      runUpdateCampaign ⟨"c1", none, none, none, none, none, none⟩ ctxW dbCampW 5 =
        (dbCampW, .error invalidInputErr) :=
  C4_empty_patch_rejected.2.1 ⟨"c1", none, none, none, none, none, none⟩
    ctxW dbCampW 5 rfl rfl rfl rfl rfl rfl

/-- C9: successful updateCampaign and updateIssue calls set the row's
updatedAt to the fresh server timestamp taken during the call, while a
successful updateBlock call changes no timestamp at all (blocks have only
createdAt, which updateBlock leaves untouched, and the other tables are
not touched either). -/
theorem C9_update_timestamp_refresh :
    (∀ (i : UpdateCampaignInput) (ctx : Ctx) (db db' : DB) (now : Nat)
        (out : Option Campaign),
      runUpdateCampaign i ctx db now = (db', .ok out) →
      CampaignUpdatedAtRefreshed i now db.campaigns db'.campaigns) ∧
    (∀ (i : UpdateIssueInput) (ctx : Ctx) (db db' : DB) (now : Nat)
        (out : Option Issue),
      runUpdateIssue i ctx db now = (db', .ok out) →
      IssueUpdatedAtRefreshed i now db.issues db'.issues) ∧
    (∀ (i : UpdateBlockInput) (ctx : Ctx) (db db' : DB) (out : Option Block),
      runUpdateBlock i ctx db = (db', .ok out) →
      BlockTimestampsUntouched db.blocks db'.blocks ∧
        db'.campaigns = db.campaigns ∧ db'.issues = db.issues) := by
  refine ⟨?_, ?_, ?_⟩
  · intro i ctx db db' now out h
    obtain ⟨h1, -, -⟩ := runUpdateCampaign_ok_inv h
    refine ⟨_, h1, fun c hid => ?_⟩
    have htrue : (c.id == i.id) = true := by simp [hid]
    simp [htrue, patchCampaign]
  · intro i ctx db db' now out h
    obtain ⟨u, -, -, h1, -, -⟩ := runUpdateIssue_ok_inv h
    refine ⟨_, h1, fun r hid => ?_⟩
    have htrue : (r.id == i.id) = true := by simp [hid]
    simp [htrue, patchIssue]
  · intro i ctx db db' out h
    obtain ⟨h1, h2, h3⟩ := runUpdateBlock_ok_inv h
    refine ⟨⟨_, h1, fun b => ?_⟩, h2, h3⟩
    by_cases hid : b.id = i.id
    · have htrue : (b.id == i.id) = true := by simp [hid]
      simp [htrue, patchBlock]
    · have hfalse : (b.id == i.id) = false := by simp [hid]
      simp [hfalse]

/-- C9 witness: the concrete successful updates of the fixtures refresh
`updatedAt` on the campaign and leave the block timestamps untouched. -/
theorem C9_update_timestamp_refresh_witness :
    CampaignUpdatedAtRefreshed updCampW 5 dbCampW.campaigns dbCampW2.campaigns ∧
    (BlockTimestampsUntouched dbBlkW.blocks dbBlkW2.blocks ∧
      dbBlkW2.campaigns = dbBlkW.campaigns ∧ dbBlkW2.issues = dbBlkW.issues) :=
  ⟨C9_update_timestamp_refresh.1 updCampW ctxW dbCampW dbCampW2 5 (some campW2) rfl,
   C9_update_timestamp_refresh.2.2 updBlkW ctxW dbBlkW dbBlkW2 (some blkW2) rfl⟩

/-- C5: for every successful createIssue call, the userId stored on the new
issue equals the userId of the campaign referenced by the input campaignId
(the campaign is resolved by id and caller ownership before the insert, and
the caller's id is copied onto the issue). -/
theorem C5_issue_inherits_campaign_owner
    (i : CreateIssueInput) (ctx : Ctx) (db db' : DB) (now : Nat)
    (newId : String) (issue : Issue)
    (h : runCreateIssue i ctx db now newId = (db', .ok issue)) :
    ∃ c ∈ db.campaigns, c.id = i.campaignId ∧ issue.userId = c.userId := by
  obtain ⟨u, -, huid, c, hc⟩ := runCreateIssue_ok_inv h
  obtain ⟨hmem, hcid, hcu⟩ := getOwnedCampaign_ok hc
  exact ⟨c, hmem, hcid, by rw [huid, hcu]⟩

/-- C5 witness: creating a concrete issue under the fixture campaign yields
an issue whose owner is the campaign's owner. -/
theorem C5_issue_inherits_campaign_owner_witness :
    ∃ c ∈ dbCampW.campaigns, c.id = creIssW.campaignId ∧
      newIssW.userId = c.userId :=
  C5_issue_inherits_campaign_owner creIssW ctxW dbCampW dbCampIssW 3 "i9"
    newIssW rfl

/-- C6: for every successful createBlock call, the stored orderIndex equals
the input orderIndex when one is supplied and equals 1 when it is omitted;
the new block is appended and no other row is renumbered, deduplicated or
otherwise touched. -/
theorem C6_block_order_index_default
    (i : CreateBlockInput) (ctx : Ctx) (db db' : DB) (now : Nat)
    (newId : String) (block : Block)
    (h : runCreateBlock i ctx db now newId = (db', .ok block)) :
    (∀ v, i.orderIndex = some v → block.orderIndex = v) ∧
    (i.orderIndex = none → block.orderIndex = 1) ∧
    db'.blocks = db.blocks ++ [block] ∧
    db'.campaigns = db.campaigns ∧ db'.issues = db.issues := by
  obtain ⟨ho, hb, hcs, his⟩ := runCreateBlock_ok_inv h
  refine ⟨?_, ?_, hb, hcs, his⟩
  · intro v hv
    rw [ho, hv]
    rfl
  · intro hv
    rw [ho, hv]
    rfl

/-- C6 witness: creating a concrete block with `orderIndex` omitted stores
orderIndex 1 and appends the block. -/
theorem C6_block_order_index_default_witness :
    (∀ v, creBlkW.orderIndex = some v → newBlkW.orderIndex = v) ∧
    (creBlkW.orderIndex = none → newBlkW.orderIndex = 1) ∧
    dbIssBlkW.blocks = dbIssW.blocks ++ [newBlkW] ∧
    dbIssBlkW.campaigns = dbIssW.campaigns ∧ dbIssBlkW.issues = dbIssW.issues :=
  C6_block_order_index_default creBlkW ctxW dbIssW dbIssBlkW 4 "b9" newBlkW rfl

/-- C7: for every deleteBlock call by an authenticated caller who owns the
issue (and its campaign), the operation returns the bare acknowledgment
`{ success := true }` exactly when a block matching both the input id and
issueId existed (and those blocks are deleted), and fails with NOT_FOUND
leaving the store unchanged when zero rows match — never a silent success. -/
theorem C7_delete_block_outcome
    (i : DeleteBlockInput) (ctx : Ctx) (db : DB) (u : User) (iss : Issue)
    (c : Campaign)
    (hu : ctx.user = some u) (hv : validDeleteBlock i = true)
    (hiss : getOwnedIssue i.issueId u.id db.issues = .ok iss)
    (hc : getOwnedCampaign iss.campaignId u.id db.campaigns = .ok c) :
    blockNotFoundErr.code = ErrCode.NOT_FOUND ∧
    ((∃ b ∈ db.blocks, b.id = i.id ∧ b.issueId = i.issueId) →
      runDeleteBlock i ctx db =
        ({ db with
            blocks := db.blocks.filter fun b => !(blockMatches i.id i.issueId b) },
          .ok ⟨true⟩)) ∧
    ((∀ b ∈ db.blocks, ¬(b.id = i.id ∧ b.issueId = i.issueId)) →
      runDeleteBlock i ctx db = (db, .error blockNotFoundErr)) := by
  refine ⟨rfl, ?_, ?_⟩
  · rintro ⟨b, hmem, hbid, hbis⟩
    have hbp : blockMatches i.id i.issueId b = true := by
      simp [blockMatches, hbid, hbis]
    have hne : db.blocks.filter (blockMatches i.id i.issueId) ≠ [] := by
      intro hempty
      have hbm := List.mem_filter.mpr ⟨hmem, hbp⟩
      rw [hempty] at hbm
      cases hbm
    have hlen : ((db.blocks.filter (blockMatches i.id i.issueId)).length == 0)
        = false := by
      simpa [List.length_eq_zero] using hne
    simp [runDeleteBlock, hv, requireUser, hu, hiss, hc, hlen]
  · intro hall
    have hempty : db.blocks.filter (blockMatches i.id i.issueId) = [] := by
      rw [List.filter_eq_nil_iff]
      intro b hb hp
      simp only [blockMatches, Bool.and_eq_true, beq_iff_eq] at hp
      exact hall b hb ⟨hp.1, hp.2⟩
    have hkeep : (db.blocks.filter fun b => !(blockMatches i.id i.issueId b))
        = db.blocks := by
      rw [List.filter_eq_self]
      intro b hb
      have hp : blockMatches i.id i.issueId b = false := by
        rcases hbool : blockMatches i.id i.issueId b with _ | _
        · rfl
        · exfalso
          simp only [blockMatches, Bool.and_eq_true, beq_iff_eq] at hbool
          exact hall b hb ⟨hbool.1, hbool.2⟩
      simp [hp]
    simp [runDeleteBlock, hv, requireUser, hu, hiss, hc, hempty, hkeep]

/-- C7 witness: deleting the fixture block succeeds with the bare
acknowledgment and removes it from the store. -/
theorem C7_delete_block_outcome_witness :
    runDeleteBlock delBlkW ctxW dbBlkW =
      (⟨[campW], [issW], []⟩, .ok ⟨true⟩) :=
  (C7_delete_block_outcome delBlkW ctxW dbBlkW userW issW campW
      rfl rfl rfl rfl).2.1 ⟨blkW, by simp [dbBlkW], rfl, rfl⟩

/-- C8: for every updateIssue call, after the owned campaign is resolved,
the issue is re-fetched filtered simultaneously by issue id, the input
campaignId and the caller's userId; if no row matches all three the
operation fails with NOT_FOUND and performs no mutation, and every
successful run implies such a triple-matching row existed. -/
theorem C8_update_issue_requires_exact_parent
    (i : UpdateIssueInput) (ctx : Ctx) (db : DB) (now : Nat) (u : User)
    (c : Campaign)
    (hu : ctx.user = some u) (hv : validUpdateIssue i = true)
    (hc : getOwnedCampaign i.campaignId u.id db.campaigns = .ok c) :
    issueNotFoundErr.code = ErrCode.NOT_FOUND ∧
    ((∀ row ∈ db.issues, ¬(row.id = i.id ∧ row.campaignId = i.campaignId ∧
        row.userId = u.id)) →
      runUpdateIssue i ctx db now = (db, .error issueNotFoundErr)) ∧
    (∀ db' out, runUpdateIssue i ctx db now = (db', .ok out) →
      ∃ row ∈ db.issues, row.id = i.id ∧ row.campaignId = i.campaignId ∧
        row.userId = u.id) := by
  refine ⟨rfl, ?_, ?_⟩
  · intro hall
    have hempty : db.issues.filter (issueMatchesTriple i u.id) = [] := by
      rw [List.filter_eq_nil_iff]
      intro r hr hp
      simp only [issueMatchesTriple, Bool.and_eq_true, beq_iff_eq] at hp
      exact hall r hr ⟨hp.1.1, hp.1.2, hp.2⟩
    simp [runUpdateIssue, hv, requireUser, hu, hc, hempty]
  · intro db' out h
    obtain ⟨u', hu', htrip, -⟩ := runUpdateIssue_ok_inv h
    rw [hu] at hu'
    cases hu'
    exact htrip

/-- C8 witness: updating an issue id that has no triple-matching row in a
store whose campaign the caller owns fails with NOT_FOUND and leaves the
store unchanged. -/
theorem C8_update_issue_requires_exact_parent_witness :
    runUpdateIssue updIssW ctxW dbCampW 7 = (dbCampW, .error issueNotFoundErr) :=
  (C8_update_issue_requires_exact_parent updIssW ctxW dbCampW 7 userW campW
      rfl rfl rfl).2.1 (by simp [dbCampW])

/-- C10: for every successful listCampaigns, listIssues, or listBlocks call,
the returned total field equals the number of elements in the returned
items array. -/
theorem C10_list_total_matches_items :
    (∀ (ctx : Ctx) (db db' : DB) (r : ListResult Campaign),
      runListCampaigns ctx db = (db', .ok r) → r.total = r.items.length) ∧
    (∀ (i : ListIssuesInput) (ctx : Ctx) (db db' : DB) (r : ListResult Issue),
      runListIssues i ctx db = (db', .ok r) → r.total = r.items.length) ∧
    (∀ (i : ListBlocksInput) (ctx : Ctx) (db db' : DB) (r : ListResult Block),
      runListBlocks i ctx db = (db', .ok r) → r.total = r.items.length) := by
  refine ⟨?_, ?_, ?_⟩
  · intro ctx db db' r h
    unfold runListCampaigns at h
    split at h
    · simp at h
    · simp only [Prod.mk.injEq] at h
      obtain ⟨-, hr⟩ := h
      cases hr
      rfl
  · intro i ctx db db' r h
    unfold runListIssues at h
    split at h
    · split at h
      · simp at h
      · split at h
        · simp at h
        · simp only [Prod.mk.injEq] at h
          obtain ⟨-, hr⟩ := h
          cases hr
          rfl
    · simp at h
  · intro i ctx db db' r h
    unfold runListBlocks at h
    split at h
    · split at h
      · simp at h
      · split at h
        · simp at h
        · split at h
          · simp at h
          · simp only [Prod.mk.injEq] at h
            obtain ⟨-, hr⟩ := h
            cases hr
            rfl
    · simp at h

/-- C10 witness: listing the fixture campaigns returns a total equal to the
length of the returned items. -/
theorem C10_list_total_matches_items_witness :
    (ListResult.mk [campW] 1).total = (ListResult.mk [campW] 1).items.length :=
  C10_list_total_matches_items.1 ctxW dbCampW dbCampW ⟨[campW], 1⟩ rfl

end NewsletterActions
